import Mathlib

/-!
A model of the rust_comm TCP communication core.

This file gives a shallow embedding, in Lean, of the connection-lifecycle
core implemented in src/rust_comm/src/lib.rs: the Connector and its send
pump, the pool-worker dispatch `thread_proc`, the per-connection
`handle_client` loop, and the Listener with its accept loop and shutdown
protocol.  Blocking I/O is made explicit: environments say which
addresses accept a TCP connect or bind (`connectOk`, `bindOk`) and what
each attempted send returns (`sendOk`); the successive returns of the
blocking accept call are an event list, each event tagged with the value
the shared run flag holds at the moment that accept returns.  Threads
are modelled sequentially consistently: a store to the run flag made
before a connect is visible at the accept event that connect produces.
-/

namespace RustComm

/-- Modelled from the spec (the concrete message type lives in the
external `rust_message` crate): the closed set of message discriminants
ordinary/data (DEFAULT), END, QUIT, SHUTDOWN. -/
inductive MessageType where
  | DEFAULT
  | END
  | QUIT
  | SHUTDOWN
  deriving DecidableEq, Repr

/-- Modelled from the spec: a message is an opaque payload plus a
`MessageType` discriminant. -/
structure Message where
  msgType : MessageType
  body : List Nat
  deriving DecidableEq, Repr

/-- `Message::new()`: a fresh ordinary message. -/
def Message.new : Message :=
  { msgType := MessageType.DEFAULT, body := [] }

/-- `msg.get_type()`. -/
def Message.get_type (m : Message) : MessageType := m.msgType

/-- `msg.set_type(t)`. -/
def Message.set_type (m : Message) (t : MessageType) : Message :=
  { m with msgType := t }

/-- Sockets are opaque to the core; a `TcpStream` is modelled by an
identifier. -/
abbrev TcpStream := Nat

/-- The `Connector` state (lib.rs lines 47-58): its two shared blocking
queues, modelled as the lists of currently queued messages (head of the
list = front of the queue), and the `connected` flag.  The processing
and logger strategy fields are zero-sized values carrying no state. -/
structure Connector where
  snd_queue : List Message
  rcv_queue : List Message
  connected : Bool
  deriving DecidableEq, Repr

/-- `Connector::is_connected`, lines 64-66. -/
def Connector.is_connected (c : Connector) : Bool := c.connected

/-- `Connector::post_message`, lines 67-69: non-blocking enqueue on the
outbound queue. -/
def Connector.post_message (c : Connector) (m : Message) : Connector :=
  { c with snd_queue := c.snd_queue ++ [m] }

/-- `Connector::get_message`, lines 70-72: blocking dequeue from the
inbound queue; an empty queue blocks the caller, modelled as `none`. -/
def Connector.get_message (c : Connector) : Option (Message × Connector) :=
  match c.rcv_queue with
  | [] => none
  | m :: rest => some (m, { c with rcv_queue := rest })

/-- `Connector::has_msg`, lines 73-75. -/
def Connector.has_msg (c : Connector) : Bool :=
  decide (c.rcv_queue.length > 0)

/-- Everything `Connector::new` does, made observable: the returned
value (`none` models the `Err` branch), how many background threads it
spawned, how many queues it allocated, and the addresses printed on the
failure path. -/
structure ConnectorNewResult where
  conn : Option Connector
  threadsSpawned : Nat
  queuesAllocated : Nat
  failLog : List String
  deriving DecidableEq, Repr

/-- `Connector::new`, lines 79-143: attempt one blocking TCP connect to
`addr` (the environment `connectOk` gives the OS outcome); on failure
print the attempted address and return `Err` with nothing else done; on
success allocate the outbound and inbound queues, spawn the send-pump
and receive-pump threads, and return a connector with
`connected = true` and both queues empty. -/
def Connector.new (connectOk : String → Bool) (addr : String) : ConnectorNewResult :=
  if connectOk addr = false then
    { conn := none, threadsSpawned := 0, queuesAllocated := 0, failLog := [addr] }
  else
    { conn := some { snd_queue := [], rcv_queue := [], connected := true },
      threadsSpawned := 2, queuesAllocated := 2, failLog := [] }

/-- Why the send pump stopped consuming its queue. -/
inductive PumpExit where
  | sendFail
  | endMsg
  | blocked
  deriving DecidableEq, Repr

/-- The Connector send-pump thread, lines 104-120, run against the
finite list of messages that will ever appear on the outbound queue:
each iteration blocking-dequeues one message, records its type, and
sends it (`sendOk` gives the result of `buf_send_message`); the loop
breaks if that send failed, breaks if the recorded type was END, and
otherwise continues.  Returns the messages it dequeued and sent, in
order, and why it stopped (`blocked` = it consumed the whole list and
is parked in `de_q`). -/
def sendPump (sendOk : Message → Bool) : List Message → List Message × PumpExit
  | [] => ([], PumpExit.blocked)
  | m :: rest =>
    if sendOk m = false then ([m], PumpExit.sendFail)
    else if m.get_type = MessageType.END then ([m], PumpExit.endMsg)
    else (m :: (sendPump sendOk rest).1, (sendPump sendOk rest).2)

/-- What one iteration of the pool-worker dispatch loop does. -/
inductive WorkerAction where
  | exit
  | blocked
  | handle (s : TcpStream)
  deriving DecidableEq, Repr

/-- One iteration of `thread_proc`, lines 150-160: first load the run
flag; if it is false, print and break out of the worker loop (no
dequeue happens); otherwise blocking-dequeue the next accepted socket
from the pool queue and hand it to `handle_client`.  Returns the action
taken and the pool queue as the iteration leaves it. -/
def thread_proc_step (run : Bool) (queue : List TcpStream) :
    WorkerAction × List TcpStream :=
  if run = false then (WorkerAction.exit, queue)
  else
    match queue with
    | [] => (WorkerAction.blocked, queue)
    | s :: rest => (WorkerAction.handle s, rest)

/-- What the spec text behind claim C2 describes, written from its words
for comparison with `thread_proc_step`: first blocking-dequeue the next
accepted socket, then check the run flag; if the flag is false at that
point, exit without handing the dequeued socket to the handler. -/
def thread_proc_step_claimed (run : Bool) (queue : List TcpStream) :
    WorkerAction × List TcpStream :=
  match queue with
  | [] => (WorkerAction.blocked, queue)
  | s :: rest =>
    if run = false then (WorkerAction.exit, rest)
    else (WorkerAction.handle s, rest)

/-- The two live states of the per-connection handler loop. -/
inductive HandlerState where
  | AWAIT_MESSAGE
  | TERMINATED
  deriving DecidableEq, Repr

/-- The observable outcome of one iteration of the `handle_client`
loop. -/
structure HandlerStep where
  next : HandlerState
  invokedProcess : Bool
  attemptedReply : Bool
  socketShutdown : Bool
  deriving DecidableEq, Repr

/-- One iteration of the `handle_client` loop, lines 174-199: receive
one message into the private queue (`recvOk` is the result of
`buf_recv_message`; on failure the loop breaks) and dequeue it; on END
or QUIT break; on SHUTDOWN shut down both directions of the socket and
break; otherwise invoke `process_message` on it and send the reply,
discarding the send result (`sendOk` is that discarded result), and
loop back. -/
def handle_client_step (recvOk : Bool) (msg : Message) (sendOk : Bool) : HandlerStep :=
  if recvOk = false then
    { next := HandlerState.TERMINATED, invokedProcess := false,
      attemptedReply := false, socketShutdown := false }
  else if msg.get_type = MessageType.END then
    { next := HandlerState.TERMINATED, invokedProcess := false,
      attemptedReply := false, socketShutdown := false }
  else if msg.get_type = MessageType.QUIT then
    { next := HandlerState.TERMINATED, invokedProcess := false,
      attemptedReply := false, socketShutdown := false }
  else if msg.get_type = MessageType.SHUTDOWN then
    { next := HandlerState.TERMINATED, invokedProcess := false,
      attemptedReply := false, socketShutdown := true }
  else
    { next := HandlerState.AWAIT_MESSAGE, invokedProcess := true,
      attemptedReply := true, socketShutdown := false }

/-- The `Listener` state, lines 208-220: the shared run flag, the
worker-thread count and the stored bound address (the `p` and `log`
strategy fields are zero-sized values).  The thread pool is created
only inside `start`, not at construction. -/
structure Listener where
  run : Bool
  num_thrds : Nat
  addr : String
  deriving DecidableEq, Repr

/-- `Listener::new`, lines 226-234: run flag true, empty stored
address, no socket and no threads yet. -/
def Listener.new (nt : Nat) : Listener :=
  { run := true, num_thrds := nt, addr := "" }

/-- Everything `Listener::start` does, made observable: the listener
state after the call, whether it returned Ok, and whether the
accept-loop thread was spawned and the pool created. -/
structure StartResult where
  lst : Listener
  ok : Bool
  acceptThreadSpawned : Bool
  poolCreated : Bool
  deriving DecidableEq, Repr

/-- `Listener::start`, lines 236-269: first store `addr` into
`self.addr`, then attempt the bind (`bindOk` gives the OS outcome); on
bind failure print a diagnostic and return `Err` with nothing further
done; on success spawn the accept-loop thread (which constructs the
pool of `num_thrds` workers) and return its join handle. -/
def Listener.start (bindOk : String → Bool) (self : Listener) (addr : String) :
    StartResult :=
  if bindOk addr = false then
    { lst := { self with addr := addr }, ok := false,
      acceptThreadSpawned := false, poolCreated := false }
  else
    { lst := { self with addr := addr }, ok := true,
      acceptThreadSpawned := true, poolCreated := true }

/-- `Listener::stop`, lines 270-276: store false into the shared run
flag, then build a transient Connector to the stored address and call
`.unwrap()` on the result — `none` models the panic (process abort)
when that self-directed connect fails — then post one QUIT message
through the transient connector.  On success, returns the stopped
listener and the transient connector with the QUIT message on its
outbound queue. -/
def Listener.stop (connectOk : String → Bool) (self : Listener) :
    Option (Listener × Connector) :=
  match (Connector.new connectOk self.addr).conn with
  | none => none
  | some c =>
      some ({ self with run := false },
        c.post_message (Message.set_type Message.new MessageType.QUIT))

/-- One return of the blocking accept call inside `tcpl.incoming()`:
the value the shared run flag holds when this accept returns, whether
the accept succeeded, and the accepted socket. -/
structure AcceptEvent where
  runFlag : Bool
  streamOk : Bool
  stream : TcpStream
  deriving DecidableEq, Repr

/-- What the accept loop did: the sockets it posted to the thread pool,
in order, and whether it broke out of the loop (`exited = false` means
it ran out of events while still parked in accept). -/
structure AcceptLoopResult where
  posted : List TcpStream
  exited : Bool
  deriving DecidableEq, Repr

/-- The accept loop of `Listener::start`, lines 254-264, run over the
successive returns of the blocking accept: for each accepted stream,
first load the run flag and break out of the loop if it is false;
otherwise, if the accept succeeded, post the socket to the thread
pool, and in either case continue looping. -/
def acceptLoop : List AcceptEvent → AcceptLoopResult
  | [] => { posted := [], exited := false }
  | e :: rest =>
    if e.runFlag = false then { posted := [], exited := true }
    else if e.streamOk then
      { posted := e.stream :: (acceptLoop rest).posted,
        exited := (acceptLoop rest).exited }
    else acceptLoop rest

/-- A QUIT message, as built by `Listener::stop`. -/
def quitMessage : Message := Message.set_type Message.new MessageType.QUIT

/-- An END message. -/
def endMessage : Message := Message.set_type Message.new MessageType.END

/-- A SHUTDOWN message. -/
def shutdownMessage : Message := Message.set_type Message.new MessageType.SHUTDOWN

/-- The exit field of the accept loop on a cons: the loop exits at the
head event when the flag is false there, and otherwise exits exactly
when the rest of the events make it exit. -/
theorem acceptLoop_cons_exited (a : AcceptEvent) (rest : List AcceptEvent) :
    (acceptLoop (a :: rest)).exited
      = if a.runFlag = false then true else (acceptLoop rest).exited := by
  by_cases h : a.runFlag = false <;> by_cases hs : a.streamOk = true <;>
    simp [acceptLoop, h, hs]

/-- Appending an accept event carrying a false run flag makes the
accept loop exit. -/
theorem acceptLoop_append_false_exited (evs : List AcceptEvent) (e : AcceptEvent)
    (he : e.runFlag = false) : (acceptLoop (evs ++ [e])).exited = true := by
  induction evs with
  | nil =>
    rw [List.nil_append, acceptLoop_cons_exited]
    simp [he]
  | cons a rest ih =>
    rw [List.cons_append, acceptLoop_cons_exited]
    by_cases h : a.runFlag = false <;> simp [h, ih]

/-- Every socket the accept loop posts to the pool comes from an accept
event at which the run flag was observed true. -/
theorem acceptLoop_posted_sourced (evs : List AcceptEvent) :
    ∀ s ∈ (acceptLoop evs).posted,
      ∃ e ∈ evs, e.runFlag = true ∧ e.stream = s := by
  induction evs with
  | nil => intro s hs; simp [acceptLoop] at hs
  | cons a rest ih =>
    intro s hs
    by_cases h : a.runFlag = false
    · simp [acceptLoop, h] at hs
    · have h2 : a.runFlag = true := by
        cases hh : a.runFlag
        · exact absurd hh h
        · rfl
      by_cases hstream : a.streamOk = true
      · have hred : (acceptLoop (a :: rest)).posted
            = a.stream :: (acceptLoop rest).posted := by
          simp [acceptLoop, h, hstream]
        rw [hred] at hs
        rcases List.mem_cons.mp hs with hcase | hmem
        · exact ⟨a, List.mem_cons_self a rest, h2, hcase.symm⟩
        · rcases ih s hmem with ⟨e, hmem2, hf, hst⟩
          exact ⟨e, List.mem_cons_of_mem a hmem2, hf, hst⟩
      · have hred : acceptLoop (a :: rest) = acceptLoop rest := by
          simp [acceptLoop, h, hstream]
        rw [hred] at hs
        rcases ih s hs with ⟨e, hmem2, hf, hst⟩
        exact ⟨e, List.mem_cons_of_mem a hmem2, hf, hst⟩

/-- The list of messages the send pump dequeues and sends is an initial
segment of the outbound queue. -/
theorem sendPump_sent_initial (sendOk : Message → Bool) (q : List Message) :
    ∃ t, (sendPump sendOk q).1 ++ t = q := by
  induction q with
  | nil => exact ⟨[], rfl⟩
  | cons m rest ih =>
    by_cases hs : sendOk m = false
    · exact ⟨rest, by simp [sendPump, hs]⟩
    · by_cases ht : m.get_type = MessageType.END
      · exact ⟨rest, by simp [sendPump, hs, ht]⟩
      · rcases ih with ⟨t, htail⟩
        refine ⟨t, ?_⟩
        simp only [sendPump, if_neg hs, if_neg ht, List.cons_append, List.cons.injEq,
          true_and]
        exact htail

/-- The send pump stops (rather than staying parked in its blocking
dequeue) exactly when the queue holds a message whose send fails or
whose type is END. -/
theorem sendPump_stops_iff (sendOk : Message → Bool) (q : List Message) :
    (sendPump sendOk q).2 ≠ PumpExit.blocked ↔
      ∃ m ∈ q, sendOk m = false ∨ m.get_type = MessageType.END := by
  induction q with
  | nil => simp [sendPump]
  | cons m rest ih =>
    by_cases hs : sendOk m = false
    · simp [sendPump, hs]
    · by_cases ht : m.get_type = MessageType.END
      · simp [sendPump, hs, ht]
      · simp [sendPump, hs, ht, ih]

/-- When every queued message sends successfully and none has type END,
the send pump consumes the whole queue and parks in its blocking
dequeue. -/
theorem sendPump_runs_dry (sendOk : Message → Bool) (q : List Message)
    (h : ∀ m ∈ q, sendOk m = true ∧ m.get_type ≠ MessageType.END) :
    sendPump sendOk q = (q, PumpExit.blocked) := by
  induction q with
  | nil => rfl
  | cons m rest ih =>
    have hm := h m (List.mem_cons_self m rest)
    have hrest : ∀ x ∈ rest, sendOk x = true ∧ x.get_type ≠ MessageType.END :=
      fun x hx => h x (List.mem_cons_of_mem m hx)
    have hs : ¬ (sendOk m = false) := by simp [hm.1]
    simp [sendPump, hs, hm.2, ih hrest]

/-- Claim C1 counterexample: stop stores false into the run flag before
it connects, so the run flag is already false at the moment the
loopback connection is accepted; on that single accept event the accept
loop exits without posting the loopback socket (id 7) to the thread
pool — contradicting the claim that the loopback socket is handed to
the pool and its QUIT message consumed by a handler thread. -/
theorem C1_counterexample_loopback_not_posted :
    (acceptLoop [{ runFlag := false, streamOk := true, stream := 7 }]).exited = true ∧
    (acceptLoop [{ runFlag := false, streamOk := true, stream := 7 }]).posted = [] ∧
    7 ∉ (acceptLoop [{ runFlag := false, streamOk := true, stream := 7 }]).posted := by
  decide

/-- Claim C1 (amended): the loopback connection created by
`Listener::stop` is accepted by the accept loop, which observes the
false run flag at that accept and exits without handing the socket to
the thread pool; the QUIT message is never consumed by any
connection-handler thread.  For any earlier accept events, appending
the loopback event (run flag false, socket fresh) makes the loop exit,
and the loopback socket is not among the sockets posted to the pool. -/
theorem C1_loopback_exits_without_pool_handoff
    (evs : List AcceptEvent) (e : AcceptEvent)
    (hflag : e.runFlag = false)
    (hfresh : ∀ x ∈ evs, x.stream ≠ e.stream) :
    (acceptLoop (evs ++ [e])).exited = true ∧
    e.stream ∉ (acceptLoop (evs ++ [e])).posted := by
  refine ⟨acceptLoop_append_false_exited evs e hflag, ?_⟩
  intro hmem
  rcases acceptLoop_posted_sourced (evs ++ [e]) e.stream hmem with ⟨x, hx, hxf, hxs⟩
  rcases List.mem_append.mp hx with hx1 | hx2
  · exact (hfresh x hx1) hxs
  · have hxe : x = e := by simpa using hx2
    subst hxe
    rw [hflag] at hxf
    exact Bool.noConfusion hxf

/-- Claim C1 witness: one ordinary accept (flag true, socket 3)
followed by the stop-injected loopback accept (flag false, socket 9):
the loop exits and socket 9 was never posted. -/
theorem C1_witness :
    (acceptLoop [{ runFlag := true, streamOk := true, stream := 3 },
        { runFlag := false, streamOk := true, stream := 9 }]).exited = true ∧
    (9 : TcpStream) ∉ (acceptLoop [{ runFlag := true, streamOk := true, stream := 3 },
        { runFlag := false, streamOk := true, stream := 9 }]).posted :=
  C1_loopback_exits_without_pool_handoff
    [{ runFlag := true, streamOk := true, stream := 3 }]
    { runFlag := false, streamOk := true, stream := 9 }
    rfl (by decide)

/-- Claim C2 counterexample: at run flag false with socket 0 queued,
the pool worker of the code (`thread_proc_step`) exits leaving the
queue untouched, while the dequeue-then-check order stated by the claim
(`thread_proc_step_claimed`) would consume the socket — so the worker
does not first dequeue and then check the flag. -/
theorem C2_counterexample_check_before_dequeue :
    thread_proc_step false [0] ≠ thread_proc_step_claimed false [0] ∧
    (thread_proc_step false [0]).2 = [0] ∧
    (thread_proc_step_claimed false [0]).2 = [] := by
  decide

/-- Claim C2 (amended): each pool worker, in every loop iteration,
first checks the run flag; if the flag is false it exits without
dequeuing any socket; otherwise it blocking-dequeues the next socket
and unconditionally hands it to the connection-handler, with no flag
check between the dequeue and the handoff. -/
theorem C2_worker_checks_flag_before_dequeue (queue : List TcpStream) :
    thread_proc_step false queue = (WorkerAction.exit, queue) ∧
    ∀ s rest, thread_proc_step true (s :: rest) = (WorkerAction.handle s, rest) := by
  constructor
  · simp [thread_proc_step]
  · intro s rest
    simp [thread_proc_step]

/-- Claim C3 counterexample: starting a listener whose stored address
is "a" on address "b" with the bind failing returns a bind error, yet
the listener state is not what it was before the call — the stored
address has already been overwritten with "b". -/
theorem C3_counterexample_addr_mutated_on_bind_failure :
    (Listener.start (fun _ => false)
        { run := true, num_thrds := 2, addr := "a" } "b").ok = false ∧
    (Listener.start (fun _ => false)
        { run := true, num_thrds := 2, addr := "a" } "b").lst
      ≠ { run := true, num_thrds := 2, addr := "a" } := by
  decide

/-- Claim C3 (amended): when `Listener::start` fails to bind, it
returns a bind error, the run flag and worker count keep their prior
values, no thread is spawned and no pool is created — but the stored
address has already been updated to the attempted address (the
assignment precedes the bind attempt). -/
theorem C3_bind_failure_frame (bindOk : String → Bool) (l : Listener) (addr : String)
    (h : bindOk addr = false) :
    (l.start bindOk addr).ok = false ∧
    (l.start bindOk addr).lst.run = l.run ∧
    (l.start bindOk addr).lst.num_thrds = l.num_thrds ∧
    (l.start bindOk addr).lst.addr = addr ∧
    (l.start bindOk addr).acceptThreadSpawned = false ∧
    (l.start bindOk addr).poolCreated = false := by
  simp [Listener.start, h]

/-- Claim C3 witness: the frame condition at a concrete listener and a
concrete failing bind. -/
theorem C3_witness :
    ((Listener.new 4).start (fun _ => false) "b").ok = false ∧
    ((Listener.new 4).start (fun _ => false) "b").lst.run = (Listener.new 4).run ∧
    ((Listener.new 4).start (fun _ => false) "b").lst.num_thrds
        = (Listener.new 4).num_thrds ∧
    ((Listener.new 4).start (fun _ => false) "b").lst.addr = "b" ∧
    ((Listener.new 4).start (fun _ => false) "b").acceptThreadSpawned = false ∧
    ((Listener.new 4).start (fun _ => false) "b").poolCreated = false :=
  C3_bind_failure_frame (fun _ => false) (Listener.new 4) "b" rfl

/-- Claim C4 counterexample: calling stop before start — the stored
address is the empty string and the self-directed connect to it fails —
reaches the `.unwrap()` on the failed `Connector::new` result and
panics, aborting the process (`none`); so not every failure path is
confined to one thread exiting early. -/
theorem C4_counterexample_stop_panics :
    Listener.stop (fun _ => false) (Listener.new 2) = none := by
  rfl

/-- Claim C4 (amended): `Connector::new` and `Listener::start` report
their failures as error results without aborting the process, but
`Listener::stop` panics (aborting the process) exactly when its
internal self-directed connect fails — for instance when stop is called
before start, while the stored address is still empty — because it
calls unwrap on the `Connector::new` result. -/
theorem C4_stop_panic_iff (connectOk : String → Bool) (l : Listener) :
    (Listener.stop connectOk l = none ↔ connectOk l.addr = false) ∧
    (∀ env a, ((Connector.new env a).conn = none ↔ env a = false)) ∧
    (∀ env lst a, ((Listener.start env lst a).ok = false ↔ env a = false)) := by
  refine ⟨?_, ?_, ?_⟩
  · by_cases h : connectOk l.addr = false <;>
      simp [Listener.stop, Connector.new, h]
  · intro env a
    by_cases h : env a = false <;> simp [Connector.new, h]
  · intro env lst a
    by_cases h : env a = false <;> simp [Listener.start, h]

/-- Claim C5: a received message of terminal type (END, QUIT or
SHUTDOWN) drives the handler to TERMINATED without invoking the
processing step and without attempting any reply on the socket, and
both socket directions are shut down exactly in the SHUTDOWN case. -/
theorem C5_terminal_message_terminates_silently (m : Message) (sendOk : Bool)
    (h : m.get_type = MessageType.END ∨ m.get_type = MessageType.QUIT ∨
        m.get_type = MessageType.SHUTDOWN) :
    (handle_client_step true m sendOk).next = HandlerState.TERMINATED ∧
    (handle_client_step true m sendOk).invokedProcess = false ∧
    (handle_client_step true m sendOk).attemptedReply = false ∧
    (m.get_type = MessageType.SHUTDOWN →
      (handle_client_step true m sendOk).socketShutdown = true) ∧
    (m.get_type ≠ MessageType.SHUTDOWN →
      (handle_client_step true m sendOk).socketShutdown = false) := by
  rcases h with h | h | h <;> simp [handle_client_step, h]

/-- Claim C5 witness: the SHUTDOWN case at a concrete message. -/
theorem C5_witness :
    Message.get_type shutdownMessage = MessageType.SHUTDOWN ∧
    (handle_client_step true shutdownMessage true).next = HandlerState.TERMINATED ∧
    (handle_client_step true shutdownMessage true).socketShutdown = true :=
  ⟨by decide,
   (C5_terminal_message_terminates_silently shutdownMessage true
      (Or.inr (Or.inr (by decide)))).1,
   (C5_terminal_message_terminates_silently shutdownMessage true
      (Or.inr (Or.inr (by decide)))).2.2.2.1 (by decide)⟩

/-- Claim C6: the send pump dequeues exactly one message per iteration
and sends it (the sent list is an initial segment of the queue, in
order); it terminates exactly when some dequeued message fails to send
or has recorded type END; and a queue of successfully sent non-END
messages — QUIT and SHUTDOWN included — never stops it. -/
theorem C6_send_pump_stops_exactly_on_failure_or_end (sendOk : Message → Bool)
    (q : List Message) :
    (∃ t, (sendPump sendOk q).1 ++ t = q) ∧
    ((sendPump sendOk q).2 ≠ PumpExit.blocked ↔
      ∃ m ∈ q, sendOk m = false ∨ m.get_type = MessageType.END) ∧
    ((∀ m ∈ q, sendOk m = true ∧ m.get_type ≠ MessageType.END) →
      sendPump sendOk q = (q, PumpExit.blocked)) :=
  ⟨sendPump_sent_initial sendOk q, sendPump_stops_iff sendOk q,
   fun h => sendPump_runs_dry sendOk q h⟩

/-- Claim C6 witness: with every send succeeding, a queue holding a
QUIT message and then an END message does stop the pump (the END, not
the QUIT, terminates it), and a queue of one QUIT message alone leaves
the pump parked in its blocking dequeue. -/
theorem C6_witness :
    (sendPump (fun _ => true) [quitMessage, endMessage]).2 ≠ PumpExit.blocked ∧
    sendPump (fun _ => true) [quitMessage] = ([quitMessage], PumpExit.blocked) :=
  ⟨(C6_send_pump_stops_exactly_on_failure_or_end (fun _ => true)
      [quitMessage, endMessage]).2.1.mpr
    ⟨endMessage, by decide, Or.inr (by decide)⟩,
   (C6_send_pump_stops_exactly_on_failure_or_end (fun _ => true)
      [quitMessage]).2.2 (by decide)⟩

/-- Claim C7: in the PROCESS state (an ordinary data message), the
result of sending the reply is discarded: even when that send fails the
handler returns to AWAIT_MESSAGE, and the whole step outcome is
independent of the send result. -/
theorem C7_reply_send_failure_not_terminal (m : Message)
    (h : m.get_type ≠ MessageType.END ∧ m.get_type ≠ MessageType.QUIT ∧
        m.get_type ≠ MessageType.SHUTDOWN) :
    (handle_client_step true m false).next = HandlerState.AWAIT_MESSAGE ∧
    handle_client_step true m false = handle_client_step true m true := by
  obtain ⟨h1, h2, h3⟩ := h
  exact ⟨by simp [handle_client_step, h1, h2, h3], rfl⟩

/-- Claim C7 witness: a concrete data message whose reply send fails
still leaves the handler in AWAIT_MESSAGE. -/
theorem C7_witness :
    (Message.get_type Message.new ≠ MessageType.END ∧
     Message.get_type Message.new ≠ MessageType.QUIT ∧
     Message.get_type Message.new ≠ MessageType.SHUTDOWN) ∧
    (handle_client_step true Message.new false).next = HandlerState.AWAIT_MESSAGE :=
  ⟨by decide, (C7_reply_send_failure_not_terminal Message.new (by decide)).1⟩

/-- Claim C8: when the TCP connect to the address fails,
`Connector::new` returns an error, spawns no background threads,
allocates no queues, and does nothing further beyond logging the
attempted address. -/
theorem C8_connect_failure_is_inert (connectOk : String → Bool) (addr : String)
    (h : connectOk addr = false) :
    (Connector.new connectOk addr).conn = none ∧
    (Connector.new connectOk addr).threadsSpawned = 0 ∧
    (Connector.new connectOk addr).queuesAllocated = 0 ∧
    (Connector.new connectOk addr).failLog = [addr] := by
  simp [Connector.new, h]

/-- Claim C8 witness: a concrete failing connect. -/
theorem C8_witness :
    (Connector.new (fun _ => false) "x").conn = none ∧
    (Connector.new (fun _ => false) "x").threadsSpawned = 0 ∧
    (Connector.new (fun _ => false) "x").queuesAllocated = 0 ∧
    (Connector.new (fun _ => false) "x").failLog = ["x"] :=
  C8_connect_failure_is_inert (fun _ => false) "x" rfl

/-- Claim C9: for a started listener (the self-directed connect to its
bound address succeeds), `Listener::stop` completes without panicking,
and the accept event its loopback connect injects — carrying the run
flag value false stored just before the connect — makes the accept loop
exit: for every trace of earlier accept events, the trace extended by
that injected event makes the loop terminate rather than stay parked in
accept, even when no other connection was ever made. -/
theorem C9_stop_makes_accept_loop_exit (l : Listener) (connectOk : String → Bool)
    (hconn : connectOk l.addr = true)
    (evs : List AcceptEvent) (e : AcceptEvent) (hflag : e.runFlag = false) :
    Listener.stop connectOk l ≠ none ∧
    (acceptLoop (evs ++ [e])).exited = true := by
  constructor
  · simp [Listener.stop, Connector.new, hconn]
  · exact acceptLoop_append_false_exited evs e hflag

/-- Claim C9 witness: a listener bound at "x", zero earlier accept
events, and the stop-injected loopback accept event alone: stop
succeeds and the accept loop exits. -/
theorem C9_witness :
    Listener.stop (fun _ => true) (Listener.mk true 2 "x") ≠ none ∧
    (acceptLoop ([] ++ [AcceptEvent.mk false true 5])).exited = true :=
  C9_stop_makes_accept_loop_exit (Listener.mk true 2 "x") (fun _ => true) rfl
    [] (AcceptEvent.mk false true 5) rfl

/-- Claim C10: every connector returned by a successful
`Connector::new` reports `is_connected = true`, and no connector
operation ever changes the connected field afterward, so a caller can
never observe false on a connector it holds. -/
theorem C10_connected_always_true :
    (∀ connectOk addr c, (Connector.new connectOk addr).conn = some c →
        c.is_connected = true) ∧
    (∀ (c : Connector) (m : Message),
        (c.post_message m).is_connected = c.is_connected) ∧
    (∀ (c : Connector) (m : Message) (c2 : Connector),
        c.get_message = some (m, c2) → c2.is_connected = c.is_connected) := by
  refine ⟨?_, ?_, ?_⟩
  · intro connectOk addr c h
    by_cases hc : connectOk addr = false
    · simp [Connector.new, hc] at h
    · simp [Connector.new, hc] at h
      subst h
      rfl
  · intro c m
    rfl
  · intro c m c2 h
    cases hq : c.rcv_queue with
    | nil => simp [Connector.get_message, hq] at h
    | cons x rest =>
      simp [Connector.get_message, hq] at h
      rcases h with ⟨hm, hc2⟩
      subst hc2
      rfl

/-- Claim C10 witness: a concrete successful connect yields a connector
with `is_connected = true`. -/
theorem C10_witness :
    (Connector.new (fun _ => true) "x").conn = some (Connector.mk [] [] true) ∧
    (Connector.mk [] [] true).is_connected = true :=
  ⟨rfl, C10_connected_always_true.1 (fun _ => true) "x" (Connector.mk [] [] true) rfl⟩

end RustComm
